import Mathlib

/-!
Formal model of euth.py (class Euth), a facial-gesture authentication system.
The core under verification is the gesture-to-symbol state machine and credential
comparator of Euth.auth (lines 114-182), the landmark geometry stage of
Euth.eye_aspect_ratio (lines 45-85), and the configuration stored by
Euth.__init__ (lines 32-39).

Modeling conventions:
- Wall-clock times, EAR values, cooldowns and thresholds are IEEE doubles in
  Python; they are modeled as exact rationals.
- One loop iteration of Euth.auth is a tick; its input is the frame's clock
  reading together with the geometry (EAR, nose x) when a face is detected.
- Python exceptions that can escape the loop (ValueError from max()/min() of an
  empty sequence, IndexError from a landmark index out of range, ValueError from
  deque(maxlen) negative) are modeled by explicit crash flags / error results.
- hashlib.sha256 is modeled by an executable implementation of FIPS 180-4
  SHA-256 over the UTF-8 bytes of the attempt string.
-/

/-- Symbolic events emitted by the detector: Blink (attempt gains "B", line 155),
Neutral (attempt gains "N", line 162), Clear (attempt wiped, line 169). -/
inductive Ev
  | blink
  | neutral
  | clear
deriving DecidableEq

/-- Configuration stored by Euth.__init__ (lines 34-39). SHAKE_BUFFER and
SHAKE_THRESHOLD are Python ints; the other fields are modeled as exact rationals. -/
structure Config where
  BLINK_THRESHOLD : ℚ
  BLINK_COOLDOWN : ℚ
  AUTO_COOLDOWN : ℚ
  SHAKE_BUFFER : ℤ
  SHAKE_THRESHOLD : ℤ
  CLEAR_COOLDOWN : ℚ
deriving DecidableEq

/-- Euth.__init__ (lines 32-39): stores the six parameters verbatim and performs
no validation whatsoever. -/
def Euth.init (blink_threshold blink_cooldown auto_cooldown : ℚ)
    (shake_buffer shake_threshold : ℤ) (shake_cooldown : ℚ) : Config :=
  { BLINK_THRESHOLD := blink_threshold
    BLINK_COOLDOWN := blink_cooldown
    AUTO_COOLDOWN := auto_cooldown
    SHAKE_BUFFER := shake_buffer
    SHAKE_THRESHOLD := shake_threshold
    CLEAR_COOLDOWN := shake_cooldown }

/-- Python default arguments of Euth.__init__: blink_threshold=0.23,
blink_cooldown=0.3, auto_cooldown=0.6, shake_buffer=10, shake_threshold=30,
shake_cooldown=0.5. -/
def defaultCfg : Config := Euth.init (23/100) (3/10) (3/5) 10 30 (1/2)

/-- Mutable loop state of Euth.auth (lines 118-126): the three debounce timers,
the nose-position deque, and the attempt string. -/
structure DState where
  last_blink_time : ℚ
  last_check_time : ℚ
  last_clear_time : ℚ
  nose_positions : List ℤ
  attempt : String
deriving DecidableEq

/-- Lines 118-121 and 126: all three timers start at the session-start clock
reading t0 (the code performs three consecutive time.time() calls, modeled as a
single instant), the deque starts empty, the attempt starts empty. -/
def initState (t0 : ℚ) : DState :=
  { last_blink_time := t0
    last_check_time := t0
    last_clear_time := t0
    nose_positions := []
    attempt := "" }

/-- collections.deque(maxlen=cap).append (line 148): append on the right,
evicting from the left when the capacity is exceeded. -/
def dequeAppend (cap : ℕ) (xs : List ℤ) (x : ℤ) : List ℤ :=
  let ys := xs ++ [x]
  ys.drop (ys.length - cap)

/-- One loop iteration's input: the frame's wall-clock time (line 150) and, when
a face was detected, the EAR value and nose x pixel coordinate computed by the
geometry stage (none models a frame with no detected face, line 140). -/
structure Tick where
  t : ℚ
  face : Option (ℚ × ℤ)
deriving DecidableEq

/-- Lines 148-171 of Euth.auth: one detector step for a tick with a detected
face, given the current time t, the EAR and the nose x coordinate. Returns the
new state, the events emitted this tick in program order (at most one
Blink/Neutral from the if/elif at lines 152-164, then at most one Clear from
lines 166-171), and a crash flag that is true when the Python code would raise:
max()/min() of an empty deque raises ValueError (reachable only when
SHAKE_BUFFER is not positive). -/
def authTickCore (cfg : Config) (st : DState) (t : ℚ) (ear : ℚ) (nose_x : ℤ) :
    DState × List (ℚ × Ev) × Bool :=
  let nose1 := dequeAppend cfg.SHAKE_BUFFER.toNat st.nose_positions nose_x
  let s1 : DState × List (ℚ × Ev) :=
    if ear < cfg.BLINK_THRESHOLD ∧ t - st.last_blink_time > cfg.BLINK_COOLDOWN ∧
        t - st.last_clear_time > cfg.CLEAR_COOLDOWN then
      ({ st with
          attempt := st.attempt ++ "B"
          last_blink_time := t
          last_check_time := t
          nose_positions := nose1 }, [(t, Ev.blink)])
    else if t - st.last_check_time ≥ cfg.AUTO_COOLDOWN ∧
        t - st.last_clear_time > cfg.CLEAR_COOLDOWN then
      ({ st with
          attempt := st.attempt ++ "N"
          last_check_time := t
          nose_positions := nose1 }, [(t, Ev.neutral)])
    else ({ st with nose_positions := nose1 }, [])
  if ((s1.1.nose_positions.length : ℤ) ≥ cfg.SHAKE_BUFFER) then
    match s1.1.nose_positions.max?, s1.1.nose_positions.min? with
    | some mx, some mn =>
      if mx - mn > cfg.SHAKE_THRESHOLD ∧ t - s1.1.last_clear_time ≥ cfg.CLEAR_COOLDOWN then
        ({ s1.1 with
            attempt := ""
            last_clear_time := t }, s1.2 ++ [(t, Ev.clear)], false)
      else (s1.1, s1.2, false)
    | _, _ => (s1.1, s1.2, true)
  else (s1.1, s1.2, false)

/-- One full tick of the detector: a frame with no detected face skips all event
logic (line 140), otherwise lines 148-171 run. -/
def authTick (cfg : Config) (st : DState) (tk : Tick) : DState × List (ℚ × Ev) × Bool :=
  match tk.face with
  | none => (st, [], false)
  | some (ear, nose_x) => authTickCore cfg st tk.t ear nose_x

/-- Console output of one tick as a function of verbosity (lines 156, 163, 170):
for verbose >= 1 a "*" per Blink/Neutral and " Cleared" per Clear, in program
order; nothing otherwise. -/
def tickOut (verbose : ℤ) (evs : List (ℚ × Ev)) : List String :=
  if 1 ≤ verbose then
    evs.map (fun p => match p.2 with | Ev.clear => " Cleared" | _ => "*")
  else []

/-- Observable outcome of Euth.auth: a Python return value True (line 182), the
frame stream ending (line 132 break, after which the function falls off and
Python returns None), or an exception propagating out of the loop. -/
inductive PyRes
  | ret (b : Bool)
  | stopped
  | exn
deriving DecidableEq

/-- UTF-8 encoding of one character (str.encode at line 179 uses UTF-8). -/
def utf8Char (c : Char) : List ℕ :=
  let n := c.toNat
  if n < 128 then [n]
  else if n < 2048 then [192 + n / 64, 128 + n % 64]
  else if n < 65536 then [224 + n / 4096, 128 + n / 64 % 64, 128 + n % 64]
  else [240 + n / 262144, 128 + n / 4096 % 64, 128 + n / 64 % 64, 128 + n % 64]

/-- UTF-8 byte sequence of a string. -/
def utf8 (s : String) : List ℕ := s.data.flatMap utf8Char

/-- Right rotation of a 32-bit word. -/
def rotr32 (n x : ℕ) : ℕ := x / 2 ^ n + x % 2 ^ n * 2 ^ (32 - n)

/-- SHA-256 small sigma 0. -/
def shaS0 (x : ℕ) : ℕ := rotr32 7 x ^^^ rotr32 18 x ^^^ x / 8

/-- SHA-256 small sigma 1. -/
def shaS1 (x : ℕ) : ℕ := rotr32 17 x ^^^ rotr32 19 x ^^^ x / 1024

/-- SHA-256 big sigma 0. -/
def shaB0 (x : ℕ) : ℕ := rotr32 2 x ^^^ rotr32 13 x ^^^ rotr32 22 x

/-- SHA-256 big sigma 1. -/
def shaB1 (x : ℕ) : ℕ := rotr32 6 x ^^^ rotr32 11 x ^^^ rotr32 25 x

/-- SHA-256 working variables a-h. -/
structure Sha8 where
  a : ℕ
  b : ℕ
  c : ℕ
  d : ℕ
  e : ℕ
  f : ℕ
  g : ℕ
  h : ℕ
deriving DecidableEq

/-- SHA-256 round constants. -/
def shaK : List ℕ :=
  [1116352408, 1899447441, 3049323471, 3921009573, 961987163, 1508970993,
   2453635748, 2870763221, 3624381080, 310598401, 607225278, 1426881987,
   1925078388, 2162078206, 2614888103, 3248222580, 3835390401, 4022224774,
   264347078, 604807628, 770255983, 1249150122, 1555081692, 1996064986,
   2554220882, 2821834349, 2952996808, 3210313671, 3336571891, 3584528711,
   113926993, 338241895, 666307205, 773529912, 1294757372, 1396182291,
   1695183700, 1986661051, 2177026350, 2456956037, 2730485921, 2820302411,
   3259730800, 3345764771, 3516065817, 3600352804, 4094571909, 275423344,
   430227734, 506948616, 659060556, 883997877, 958139571, 1322822218,
   1537002063, 1747873779, 1955562222, 2024104815, 2227730452, 2361852424,
   2428436474, 2756734187, 3204031479, 3329325298]

/-- SHA-256 initial hash value. -/
def shaH0 : Sha8 :=
  ⟨1779033703, 3144134277, 1013904242, 2773480762,
   1359893119, 2600822924, 528734635, 1541459225⟩

/-- One step of the SHA-256 message-schedule extension. -/
def shaExtendStep (w : List ℕ) (i : ℕ) : List ℕ :=
  w ++ [(w.getD (i - 16) 0 + shaS0 (w.getD (i - 15) 0) + w.getD (i - 7) 0 +
         shaS1 (w.getD (i - 2) 0)) % 2 ^ 32]

/-- SHA-256 message schedule: 16 block words extended to 64. -/
def shaSchedule (w16 : List ℕ) : List ℕ :=
  (List.range 48).foldl (fun w j => shaExtendStep w (16 + j)) w16

/-- One SHA-256 compression round. -/
def shaRound (s : Sha8) (ki wi : ℕ) : Sha8 :=
  let t1 := (s.h + shaB1 s.e + ((s.e &&& s.f) ^^^ ((s.e ^^^ 4294967295) &&& s.g)) +
             ki + wi) % 2 ^ 32
  let t2 := (shaB0 s.a + ((s.a &&& s.b) ^^^ (s.a &&& s.c) ^^^ (s.b &&& s.c))) % 2 ^ 32
  ⟨(t1 + t2) % 2 ^ 32, s.a, s.b, s.c, (s.d + t1) % 2 ^ 32, s.e, s.f, s.g⟩

/-- SHA-256 compression of one 16-word block into the running hash. -/
def shaCompress (hs : Sha8) (block : List ℕ) : Sha8 :=
  let w := shaSchedule block
  let f := (List.zip shaK w).foldl (fun s p => shaRound s p.1 p.2) hs
  ⟨(hs.a + f.a) % 2 ^ 32, (hs.b + f.b) % 2 ^ 32, (hs.c + f.c) % 2 ^ 32,
   (hs.d + f.d) % 2 ^ 32, (hs.e + f.e) % 2 ^ 32, (hs.f + f.f) % 2 ^ 32,
   (hs.g + f.g) % 2 ^ 32, (hs.h + f.h) % 2 ^ 32⟩

/-- Big-endian bytes of a number, fixed width. -/
def beBytes (n : ℕ) : ℕ → List ℕ
  | 0 => []
  | k + 1 => beBytes (n / 256) k ++ [n % 256]

/-- Group four bytes into one big-endian 32-bit word, across a byte list. -/
def bytesToWords : List ℕ → List ℕ
  | b0 :: b1 :: b2 :: b3 :: rest =>
    (b0 * 16777216 + b1 * 65536 + b2 * 256 + b3) :: bytesToWords rest
  | _ => []

/-- Split a byte list into 64-byte chunks (structural recursion on a fuel bound
so that the kernel can evaluate it; the fuel never runs out since every step
consumes at least one element). -/
def chunksGo : ℕ → List ℕ → List (List ℕ)
  | _, [] => []
  | 0, _ :: _ => []
  | fuel + 1, b :: bs => ((b :: bs).take 64) :: chunksGo fuel ((b :: bs).drop 64)

/-- Split a byte list into 64-byte chunks. -/
def chunks64 (l : List ℕ) : List (List ℕ) := chunksGo l.length l

/-- SHA-256 padding: append 0x80, zeros to 56 mod 64, and the 64-bit big-endian
bit length. -/
def shaPad (msg : List ℕ) : List ℕ :=
  msg ++ [128] ++ List.replicate ((119 - msg.length % 64) % 64) 0 ++
    beBytes (8 * msg.length) 8

/-- SHA-256 of a byte sequence, as 32 bytes. -/
def sha256 (msg : List ℕ) : List ℕ :=
  let fin := (chunks64 (shaPad msg)).foldl
    (fun hs blk => shaCompress hs (bytesToWords blk)) shaH0
  beBytes fin.a 4 ++ beBytes fin.b 4 ++ beBytes fin.c 4 ++ beBytes fin.d 4 ++
  beBytes fin.e 4 ++ beBytes fin.f 4 ++ beBytes fin.g 4 ++ beBytes fin.h 4

/-- Lowercase hex character of a value below 16. -/
def hexChar (n : ℕ) : Char := if n < 10 then Char.ofNat (48 + n) else Char.ofNat (87 + n)

/-- Two lowercase hex characters of a byte. -/
def byteHex (b : ℕ) : List Char := [hexChar (b / 16), hexChar (b % 16)]

/-- Lowercase hex string of a byte sequence. -/
def hexStr (bs : List ℕ) : String := ⟨bs.flatMap byteHex⟩

/-- Line 179: hashlib.sha256(attempt.encode()).hexdigest(). -/
def sha256hex (s : String) : String := hexStr (sha256 (utf8 s))

/-- Lines 128-185 of Euth.auth: the frame loop, given the already-created state.
Per tick: run the detector (skipped when no face), then hash the attempt and
compare with the password (lines 179-182). A raised exception propagates (exn);
reading past the last frame ends the loop (stopped, Python returns None).
Returns the outcome, the final state, the emitted events in order, and the
console output as a function of verbose. -/
def authLoop (cfg : Config) (password : String) (verbose : ℤ) :
    DState → List Tick → PyRes × DState × List (ℚ × Ev) × List String
  | st, [] => (PyRes.stopped, st, [], [])
  | st, tk :: rest =>
    match authTick cfg st tk with
    | (st1, evs1, true) => (PyRes.exn, st1, evs1, tickOut verbose evs1)
    | (st1, evs1, false) =>
      if sha256hex st1.attempt == password then
        (PyRes.ret true, st1, evs1,
         tickOut verbose evs1 ++ if 2 ≤ verbose then [" Authenticated"] else [])
      else
        match authLoop cfg password verbose st1 rest with
        | (r, st2, evs2, out2) => (r, st2, evs1 ++ evs2, tickOut verbose evs1 ++ out2)

/-- Euth.auth (lines 87-185): initialize the timers at the session-start clock
reading t0 and the deque; deque(maxlen) with a negative SHAKE_BUFFER raises
ValueError at line 121 before any frame is processed (exn); otherwise run the
frame loop. Python defaults are password="" and verbose=2. -/
def Euth.auth (cfg : Config) (password : String) (verbose : ℤ) (t0 : ℚ)
    (ticks : List Tick) : PyRes × DState × List (ℚ × Ev) × List String :=
  if cfg.SHAKE_BUFFER < 0 then (PyRes.exn, initState t0, [], [])
  else authLoop cfg password verbose (initState t0) ticks

/-- Event-class test: Blink. -/
def isBlink : Ev → Bool
  | Ev.blink => true
  | _ => false

/-- Event-class test: Blink or Neutral (the events that update last_check_time). -/
def isBN : Ev → Bool
  | Ev.clear => false
  | _ => true

/-- Event-class test: Clear. -/
def isClear : Ev → Bool
  | Ev.clear => true
  | _ => false

/-- Running value of a debounce timer over an event trace: starting from x, take
the time of each event satisfying p (the last such time wins). Tracks
last_blink_time (p = isBlink), last_check_time (p = isBN) and last_clear_time
(p = isClear) through a trace. -/
def lastOf (p : Ev → Bool) : ℚ → List (ℚ × Ev) → ℚ
  | x, [] => x
  | x, (t, e) :: rest => lastOf p (if p e then t else x) rest

/-- Blink debounce property of an event trace: relative to the running
last-blink time (seeded with lb), every Blink arrives strictly more than bc
later. -/
def blinkSep (bc : ℚ) : ℚ → List (ℚ × Ev) → Bool
  | _, [] => true
  | lb, (t, Ev.blink) :: rest => decide (t - lb > bc) && blinkSep bc t rest
  | lb, (_, Ev.neutral) :: rest => blinkSep bc lb rest
  | lb, (_, Ev.clear) :: rest => blinkSep bc lb rest

/-- Neutral pacing property of an event trace: relative to the running
last-Blink-or-Neutral time (seeded with lc), every Neutral arrives at least
auto later. -/
def checkSep (auto : ℚ) : ℚ → List (ℚ × Ev) → Bool
  | _, [] => true
  | _, (t, Ev.blink) :: rest => checkSep auto t rest
  | lc, (t, Ev.neutral) :: rest => decide (t - lc ≥ auto) && checkSep auto t rest
  | lc, (_, Ev.clear) :: rest => checkSep auto lc rest

/-- Clear debounce property of an event trace: relative to the running
last-clear time (seeded with c0), every Clear arrives at least cc later. -/
def clearSep (cc : ℚ) : ℚ → List (ℚ × Ev) → Bool
  | _, [] => true
  | c0, (t, Ev.clear) :: rest => decide (t - c0 ≥ cc) && clearSep cc t rest
  | c0, (_, Ev.blink) :: rest => clearSep cc c0 rest
  | c0, (_, Ev.neutral) :: rest => clearSep cc c0 rest

/-- Clear-cooldown suppression property of an event trace: relative to the
running last-clear time (seeded with c0), every Blink and every Neutral arrives
strictly more than cc later. -/
def bnAfterClear (cc : ℚ) : ℚ → List (ℚ × Ev) → Bool
  | _, [] => true
  | _, (t, Ev.clear) :: rest => bnAfterClear cc t rest
  | c0, (t, Ev.blink) :: rest => decide (t - c0 > cc) && bnAfterClear cc c0 rest
  | c0, (t, Ev.neutral) :: rest => decide (t - c0 > cc) && bnAfterClear cc c0 rest

theorem lastOf_append (p : Ev → Bool) (x : ℚ) (l1 l2 : List (ℚ × Ev)) :
    lastOf p x (l1 ++ l2) = lastOf p (lastOf p x l1) l2 := by
  induction l1 generalizing x with
  | nil => rfl
  | cons a l ih => rcases a with ⟨t, e⟩; simp [lastOf, ih]

theorem blinkSep_append (bc : ℚ) (x : ℚ) (l1 l2 : List (ℚ × Ev)) :
    blinkSep bc x (l1 ++ l2) =
      (blinkSep bc x l1 && blinkSep bc (lastOf isBlink x l1) l2) := by
  induction l1 generalizing x with
  | nil => simp [blinkSep, lastOf]
  | cons a l ih =>
    rcases a with ⟨t, e⟩
    cases e <;> simp [blinkSep, lastOf, isBlink, ih, Bool.and_assoc]

theorem checkSep_append (auto : ℚ) (x : ℚ) (l1 l2 : List (ℚ × Ev)) :
    checkSep auto x (l1 ++ l2) =
      (checkSep auto x l1 && checkSep auto (lastOf isBN x l1) l2) := by
  induction l1 generalizing x with
  | nil => simp [checkSep, lastOf]
  | cons a l ih =>
    rcases a with ⟨t, e⟩
    cases e <;> simp [checkSep, lastOf, isBN, ih, Bool.and_assoc]

theorem clearSep_append (cc : ℚ) (x : ℚ) (l1 l2 : List (ℚ × Ev)) :
    clearSep cc x (l1 ++ l2) =
      (clearSep cc x l1 && clearSep cc (lastOf isClear x l1) l2) := by
  induction l1 generalizing x with
  | nil => simp [clearSep, lastOf]
  | cons a l ih =>
    rcases a with ⟨t, e⟩
    cases e <;> simp [clearSep, lastOf, isClear, ih, Bool.and_assoc]

theorem bnAfterClear_append (cc : ℚ) (x : ℚ) (l1 l2 : List (ℚ × Ev)) :
    bnAfterClear cc x (l1 ++ l2) =
      (bnAfterClear cc x l1 && bnAfterClear cc (lastOf isClear x l1) l2) := by
  induction l1 generalizing x with
  | nil => simp [bnAfterClear, lastOf]
  | cons a l ih =>
    rcases a with ⟨t, e⟩
    cases e <;> simp [bnAfterClear, lastOf, isClear, ih, Bool.and_assoc]

/-- Combined per-segment invariant: passing from state st to state st' while
emitting evs, the three timers of st' are the scan-updates of those of st, the
four debounce scans hold relative to st's timers, and the deque length stays
bounded by the capacity or by its starting length. -/
def ScanOK (cfg : Config) (st st' : DState) (evs : List (ℚ × Ev)) : Prop :=
  st'.last_blink_time = lastOf isBlink st.last_blink_time evs ∧
  st'.last_check_time = lastOf isBN st.last_check_time evs ∧
  st'.last_clear_time = lastOf isClear st.last_clear_time evs ∧
  blinkSep cfg.BLINK_COOLDOWN st.last_blink_time evs = true ∧
  checkSep cfg.AUTO_COOLDOWN st.last_check_time evs = true ∧
  clearSep cfg.CLEAR_COOLDOWN st.last_clear_time evs = true ∧
  bnAfterClear cfg.CLEAR_COOLDOWN st.last_clear_time evs = true ∧
  st'.nose_positions.length ≤ max cfg.SHAKE_BUFFER.toNat st.nose_positions.length

theorem ScanOK_nil (cfg : Config) (st : DState) : ScanOK cfg st st [] := by
  refine ⟨rfl, rfl, rfl, rfl, rfl, rfl, rfl, le_max_right _ _⟩

theorem ScanOK_trans (cfg : Config) (st1 st2 st3 : DState)
    (evs1 evs2 : List (ℚ × Ev)) (h1 : ScanOK cfg st1 st2 evs1)
    (h2 : ScanOK cfg st2 st3 evs2) : ScanOK cfg st1 st3 (evs1 ++ evs2) := by
  obtain ⟨b1, c1, l1, s1, s2, s3, s4, n1⟩ := h1
  obtain ⟨b2, c2, l2, t1, t2, t3, t4, n2⟩ := h2
  refine ⟨?_, ?_, ?_, ?_, ?_, ?_, ?_, ?_⟩
  · rw [lastOf_append, ← b1, b2]
  · rw [lastOf_append, ← c1, c2]
  · rw [lastOf_append, ← l1, l2]
  · rw [blinkSep_append, s1, ← b1, t1, Bool.and_self]
  · rw [checkSep_append, s2, ← c1, t2, Bool.and_self]
  · rw [clearSep_append, s3, ← l1, t3, Bool.and_self]
  · rw [bnAfterClear_append, s4, ← l1, t4, Bool.and_self]
  · omega

theorem dequeAppend_length_le (cap : ℕ) (xs : List ℤ) (x : ℤ) :
    (dequeAppend cap xs x).length ≤ cap := by
  simp [dequeAppend]; omega

set_option maxHeartbeats 1000000 in
theorem tickCore_scan (cfg : Config) (st : DState) (t ear : ℚ) (nx : ℤ) :
    ScanOK cfg st (authTickCore cfg st t ear nx).1 (authTickCore cfg st t ear nx).2.1 := by
  have hd := dequeAppend_length_le cfg.SHAKE_BUFFER.toNat st.nose_positions nx
  simp only [authTickCore]
  repeat' split
  all_goals
    simp_all only [ScanOK, lastOf, isBlink, isBN, isClear, blinkSep, checkSep, clearSep,
      bnAfterClear, decide_eq_true_eq, Bool.and_eq_true, and_true, true_and, if_true, if_false,
      Bool.true_and, Bool.and_true, decide_True, decide_False, not_and, not_lt, not_le,
      le_max_iff, List.length_nil]
  all_goals try exact Or.inl trivial
  all_goals simp_all

theorem tick_scan (cfg : Config) (st : DState) (tk : Tick) :
    ScanOK cfg st (authTick cfg st tk).1 (authTick cfg st tk).2.1 := by
  rcases tk with ⟨t, face⟩
  cases face with
  | none => exact ScanOK_nil cfg st
  | some p => rcases p with ⟨ear, nx⟩; exact tickCore_scan cfg st t ear nx

theorem authLoop_scan (cfg : Config) (pw : String) (v : ℤ) (ticks : List Tick) :
    ∀ st : DState,
      ScanOK cfg st (authLoop cfg pw v st ticks).2.1 (authLoop cfg pw v st ticks).2.2.1 := by
  induction ticks with
  | nil => intro st; exact ScanOK_nil cfg st
  | cons tk rest ih =>
    intro st
    have htick := tick_scan cfg st tk
    rcases h : authTick cfg st tk with ⟨st1, evs1, crashed⟩
    rw [h] at htick
    cases crashed with
    | true => simpa [authLoop, h] using htick
    | false =>
      by_cases hm : (sha256hex st1.attempt == pw) = true
      · simpa [authLoop, h, hm] using htick
      · have hrest := ih st1
        rcases h2 : authLoop cfg pw v st1 rest with ⟨r2, st2, evs2, out2⟩
        rw [h2] at hrest
        have : authLoop cfg pw v st (tk :: rest) =
            (r2, st2, evs1 ++ evs2, tickOut v evs1 ++ out2) := by
          simp [authLoop, h, hm, h2]
        rw [this]
        exact ScanOK_trans cfg st st1 st2 evs1 evs2 htick hrest

theorem auth_scan (cfg : Config) (pw : String) (v : ℤ) (t0 : ℚ) (ticks : List Tick) :
    ScanOK cfg (initState t0) (Euth.auth cfg pw v t0 ticks).2.1
      (Euth.auth cfg pw v t0 ticks).2.2.1 := by
  unfold Euth.auth
  split
  · exact ScanOK_nil cfg (initState t0)
  · exact authLoop_scan cfg pw v ticks (initState t0)

/-- C1: for every tick, at most one of Blink/Neutral is emitted (the if/elif at
lines 152-164 is exclusive), and whenever a Clear fires in the same tick the
attempt is empty after the tick: the wipe at line 169 runs after the append, so
any symbol appended this tick does not survive it. -/
theorem C1_single_symbol_and_clear_wipes (cfg : Config) (st : DState) (tk : Tick) :
    (authTick cfg st tk).2.1.countP (fun p => !isClear p.2) ≤ 1 ∧
    ((tk.t, Ev.clear) ∉ (authTick cfg st tk).2.1 ∨
      (authTick cfg st tk).1.attempt = "") := by
  rcases tk with ⟨t, face⟩
  cases face with
  | none => simp [authTick]
  | some p =>
    rcases p with ⟨ear, nx⟩
    simp only [authTick, authTickCore]
    repeat' split
    all_goals simp [isClear]

/-- C6: for every configuration, password, verbosity, session start time and
input sequence, the emitted event trace satisfies: every Blink arrives strictly
more than BLINK_COOLDOWN after the running last-blink time (seeded with the
session start, updated at each Blink), and every Neutral arrives at least
AUTO_COOLDOWN after the running last-Blink-or-Neutral time. -/
theorem C6_blink_cooldown_and_neutral_pacing (cfg : Config) (pw : String) (v : ℤ)
    (t0 : ℚ) (ticks : List Tick) :
    blinkSep cfg.BLINK_COOLDOWN t0 (Euth.auth cfg pw v t0 ticks).2.2.1 = true ∧
    checkSep cfg.AUTO_COOLDOWN t0 (Euth.auth cfg pw v t0 ticks).2.2.1 = true :=
  ⟨(auth_scan cfg pw v t0 ticks).2.2.2.1, (auth_scan cfg pw v t0 ticks).2.2.2.2.1⟩

/-- C7: for every configuration, password, verbosity, session start time and
input sequence, every Blink and every Neutral in the emitted event trace arrives
strictly more than CLEAR_COOLDOWN after the running last-clear time (the most
recent Clear, seeded with the session start, which is how last_clear_time is
initialized). -/
theorem C7_no_blink_neutral_within_clear_cooldown (cfg : Config) (pw : String)
    (v : ℤ) (t0 : ℚ) (ticks : List Tick) :
    bnAfterClear cfg.CLEAR_COOLDOWN t0 (Euth.auth cfg pw v t0 ticks).2.2.1 = true :=
  (auth_scan cfg pw v t0 ticks).2.2.2.2.2.2.1

/-- C8: for every configuration, password, verbosity, session start time and
input sequence, the nose deque of the final state never exceeds the SHAKE_BUFFER
capacity (clamped at zero as deque(maxlen) does), and every Clear in the emitted
trace arrives at least CLEAR_COOLDOWN after the running last-clear time, so a
Clear cannot immediately re-trigger. Since ticks ranges over all sequences,
every reachable state is the final state of some run. -/
theorem C8_nose_bound_and_clear_debounce (cfg : Config) (pw : String) (v : ℤ)
    (t0 : ℚ) (ticks : List Tick) :
    (Euth.auth cfg pw v t0 ticks).2.1.nose_positions.length ≤ cfg.SHAKE_BUFFER.toNat ∧
    clearSep cfg.CLEAR_COOLDOWN t0 (Euth.auth cfg pw v t0 ticks).2.2.1 = true := by
  refine ⟨?_, (auth_scan cfg pw v t0 ticks).2.2.2.2.2.1⟩
  have h8 := (auth_scan cfg pw v t0 ticks).2.2.2.2.2.2.2
  simp only [initState, List.length_nil] at h8
  omega

/-- Per-event form of the session-start cooldown property: a Blink at time t has
t - t0 strictly beyond both BLINK_COOLDOWN (bc) and CLEAR_COOLDOWN (cc); a
Neutral at time t has t - t0 at least AUTO_COOLDOWN (auto). -/
def c9ok (t0 bc cc auto : ℚ) (p : ℚ × Ev) : Bool :=
  match p.2 with
  | Ev.blink => decide (p.1 - t0 > bc) && decide (p.1 - t0 > cc)
  | Ev.neutral => decide (p.1 - t0 ≥ auto)
  | Ev.clear => true

set_option maxHeartbeats 1000000 in
theorem tickCore_c9 (cfg : Config) (st : DState) (t ear : ℚ) (nx : ℤ) (t0 : ℚ)
    (hcc : 0 ≤ cfg.CLEAR_COOLDOWN)
    (h1 : t0 ≤ st.last_blink_time) (h2 : t0 ≤ st.last_check_time)
    (h3 : t0 ≤ st.last_clear_time) :
    ((authTickCore cfg st t ear nx).2.1.all
        (c9ok t0 cfg.BLINK_COOLDOWN cfg.CLEAR_COOLDOWN cfg.AUTO_COOLDOWN) = true) ∧
    t0 ≤ (authTickCore cfg st t ear nx).1.last_blink_time ∧
    t0 ≤ (authTickCore cfg st t ear nx).1.last_check_time ∧
    t0 ≤ (authTickCore cfg st t ear nx).1.last_clear_time := by
  simp only [authTickCore]
  repeat' split
  all_goals simp_all [c9ok]
  all_goals repeat' apply And.intro
  all_goals linarith

theorem tick_c9 (cfg : Config) (st : DState) (tk : Tick) (t0 : ℚ)
    (hcc : 0 ≤ cfg.CLEAR_COOLDOWN)
    (h1 : t0 ≤ st.last_blink_time) (h2 : t0 ≤ st.last_check_time)
    (h3 : t0 ≤ st.last_clear_time) :
    ((authTick cfg st tk).2.1.all
        (c9ok t0 cfg.BLINK_COOLDOWN cfg.CLEAR_COOLDOWN cfg.AUTO_COOLDOWN) = true) ∧
    t0 ≤ (authTick cfg st tk).1.last_blink_time ∧
    t0 ≤ (authTick cfg st tk).1.last_check_time ∧
    t0 ≤ (authTick cfg st tk).1.last_clear_time := by
  rcases tk with ⟨t, face⟩
  cases face with
  | none => exact ⟨rfl, h1, h2, h3⟩
  | some p => rcases p with ⟨ear, nx⟩; exact tickCore_c9 cfg st t ear nx t0 hcc h1 h2 h3

theorem authLoop_c9 (cfg : Config) (pw : String) (v : ℤ) (ticks : List Tick)
    (t0 : ℚ) (hcc : 0 ≤ cfg.CLEAR_COOLDOWN) :
    ∀ st : DState, t0 ≤ st.last_blink_time → t0 ≤ st.last_check_time →
      t0 ≤ st.last_clear_time →
      (authLoop cfg pw v st ticks).2.2.1.all
        (c9ok t0 cfg.BLINK_COOLDOWN cfg.CLEAR_COOLDOWN cfg.AUTO_COOLDOWN) = true := by
  induction ticks with
  | nil => intro st _ _ _; rfl
  | cons tk rest ih =>
    intro st h1 h2 h3
    have htick := tick_c9 cfg st tk t0 hcc h1 h2 h3
    rcases h : authTick cfg st tk with ⟨st1, evs1, crashed⟩
    rw [h] at htick
    obtain ⟨ha, hb1, hb2, hb3⟩ := htick
    cases crashed with
    | true => simpa [authLoop, h] using ha
    | false =>
      by_cases hm : (sha256hex st1.attempt == pw) = true
      · simpa [authLoop, h, hm] using ha
      · have hrest := ih st1 hb1 hb2 hb3
        rcases h2' : authLoop cfg pw v st1 rest with ⟨r2, st2, evs2, out2⟩
        rw [h2'] at hrest
        have heq : authLoop cfg pw v st (tk :: rest) =
            (r2, st2, evs1 ++ evs2, tickOut v evs1 ++ out2) := by
          simp [authLoop, h, hm, h2']
        rw [heq]
        simp only [List.all_append]
        simp [ha, hrest]

/-- C9: the three debounce timers are all initialized to the session-start clock
reading t0, and consequently (whenever CLEAR_COOLDOWN is nonnegative, as in any
meaningful configuration) no Blink is emitted until both BLINK_COOLDOWN and
CLEAR_COOLDOWN have strictly elapsed since t0, and no Neutral until
AUTO_COOLDOWN has elapsed since t0. -/
theorem C9_session_start_cooldowns (cfg : Config) (pw : String) (v : ℤ) (t0 : ℚ)
    (ticks : List Tick) (hcc : 0 ≤ cfg.CLEAR_COOLDOWN) :
    (initState t0).last_blink_time = t0 ∧ (initState t0).last_check_time = t0 ∧
    (initState t0).last_clear_time = t0 ∧
    (Euth.auth cfg pw v t0 ticks).2.2.1.all
      (c9ok t0 cfg.BLINK_COOLDOWN cfg.CLEAR_COOLDOWN cfg.AUTO_COOLDOWN) = true := by
  refine ⟨rfl, rfl, rfl, ?_⟩
  unfold Euth.auth
  split
  · rfl
  · exact authLoop_c9 cfg pw v ticks t0 hcc (initState t0) le_rfl le_rfl le_rfl

/-- Witness for C9 at the default configuration, session start 0 and a single
face tick at time 1 with EAR 0.1 (which emits a Blink). -/
theorem C9_session_start_cooldowns_witness :
    0 ≤ defaultCfg.CLEAR_COOLDOWN ∧
    ((initState 0).last_blink_time = 0 ∧ (initState 0).last_check_time = 0 ∧
    (initState 0).last_clear_time = 0 ∧
    (Euth.auth defaultCfg "" 2 0 [⟨1, some (1/10, 0)⟩]).2.2.1.all
      (c9ok 0 defaultCfg.BLINK_COOLDOWN defaultCfg.CLEAR_COOLDOWN
        defaultCfg.AUTO_COOLDOWN) = true) :=
  ⟨by with_unfolding_all decide,
   C9_session_start_cooldowns defaultCfg "" 2 0 [⟨1, some (1/10, 0)⟩]
     (by with_unfolding_all decide)⟩

theorem authLoop_verbose_irrelevant (cfg : Config) (pw : String) (v1 v2 : ℤ)
    (ticks : List Tick) : ∀ st : DState,
    (authLoop cfg pw v1 st ticks).1 = (authLoop cfg pw v2 st ticks).1 ∧
    (authLoop cfg pw v1 st ticks).2.1 = (authLoop cfg pw v2 st ticks).2.1 ∧
    (authLoop cfg pw v1 st ticks).2.2.1 = (authLoop cfg pw v2 st ticks).2.2.1 := by
  induction ticks with
  | nil => intro st; exact ⟨rfl, rfl, rfl⟩
  | cons tk rest ih =>
    intro st
    rcases h : authTick cfg st tk with ⟨st1, evs1, crashed⟩
    cases crashed with
    | true => simp [authLoop, h]
    | false =>
      by_cases hm : (sha256hex st1.attempt == pw) = true
      · simp [authLoop, h, hm]
      · obtain ⟨i1, i2, i3⟩ := ih st1
        rcases hA : authLoop cfg pw v1 st1 rest with ⟨rA, stA, evsA, outA⟩
        rcases hB : authLoop cfg pw v2 st1 rest with ⟨rB, stB, evsB, outB⟩
        rw [hA, hB] at i1 i2 i3
        simp only at i1 i2 i3
        simp [authLoop, h, hm, hA, hB, i1, i2, i3]

/-- C10: the verbose parameter only influences the console output: for every
fixed configuration, password, session start and input sequence, two sessions
differing only in verbose return the same outcome, the same final detector
state (hence the same attempt evolution, since this holds for every prefix of
the input sequence), and the same emitted event trace. -/
theorem C10_verbose_only_affects_reporting (cfg : Config) (pw : String) (t0 : ℚ)
    (ticks : List Tick) (v1 v2 : ℤ) :
    (Euth.auth cfg pw v1 t0 ticks).1 = (Euth.auth cfg pw v2 t0 ticks).1 ∧
    (Euth.auth cfg pw v1 t0 ticks).2.1 = (Euth.auth cfg pw v2 t0 ticks).2.1 ∧
    (Euth.auth cfg pw v1 t0 ticks).2.2.1 = (Euth.auth cfg pw v2 t0 ticks).2.2.1 := by
  unfold Euth.auth
  split
  · exact ⟨rfl, rfl, rfl⟩
  · exact authLoop_verbose_irrelevant cfg pw v1 v2 ticks (initState t0)

/-- Crash-aware pure fold of the detector over an input sequence: one step runs
the tick on the carried state unless a crash already happened, in which case the
pair is frozen (an exception aborts the loop, so no later state exists). -/
def tickFold (cfg : Config) (p : DState × Bool) (tk : Tick) : DState × Bool :=
  if p.2 then p
  else
    match authTick cfg p.1 tk with
    | (st1, _, crashed) => (st1, crashed)

theorem tickFold_sticky (cfg : Config) (l : List Tick) (s : DState) :
    l.foldl (tickFold cfg) (s, true) = (s, true) := by
  induction l with
  | nil => rfl
  | cons tk rest ih => simpa [tickFold] using ih

theorem authLoop_ret_iff (cfg : Config) (pw : String) (v : ℤ) (ticks : List Tick) :
    ∀ st : DState, (authLoop cfg pw v st ticks).1 = PyRes.ret true ↔
      ∃ i, i < ticks.length ∧
        ((ticks.take (i + 1)).foldl (tickFold cfg) (st, false)).2 = false ∧
        sha256hex ((ticks.take (i + 1)).foldl (tickFold cfg) (st, false)).1.attempt = pw := by
  induction ticks with
  | nil =>
    intro st
    simp [authLoop]
  | cons tk rest ih =>
    intro st
    rcases h : authTick cfg st tk with ⟨st1, evs1, crashed⟩
    have hstep : ∀ i : ℕ, ((tk :: rest).take (i + 1)).foldl (tickFold cfg) (st, false) =
        (rest.take i).foldl (tickFold cfg) (st1, crashed) := by
      intro i
      simp [List.take_succ_cons, List.foldl_cons, tickFold, h]
    cases crashed with
    | true =>
      have hL : (authLoop cfg pw v st (tk :: rest)).1 = PyRes.exn := by
        simp [authLoop, h]
      rw [hL]
      simp only [hstep]
      constructor
      · intro hcon; exact absurd hcon (by simp)
      · rintro ⟨i, hi, hfalse, hmatch⟩
        rw [tickFold_sticky] at hfalse
        exact absurd hfalse (by simp)
    | false =>
      by_cases hm : (sha256hex st1.attempt == pw) = true
      · have hL : (authLoop cfg pw v st (tk :: rest)).1 = PyRes.ret true := by
          simp [authLoop, h, hm]
        rw [hL]
        simp only [hstep]
        constructor
        · intro _
          exact ⟨0, by simp, by simpa using (beq_iff_eq.mp hm)⟩
        · intro _; trivial
      · have hL : (authLoop cfg pw v st (tk :: rest)).1 = (authLoop cfg pw v st1 rest).1 := by
          rcases h2 : authLoop cfg pw v st1 rest with ⟨r2, st2, evs2, out2⟩
          simp [authLoop, h, hm, h2]
        rw [hL, ih st1]
        simp only [hstep]
        constructor
        · rintro ⟨j, hj, hP⟩
          exact ⟨j + 1, by simpa using Nat.succ_lt_succ hj, by simpa using hP⟩
        · rintro ⟨i, hi, hP⟩
          cases i with
          | zero =>
            exfalso
            have : sha256hex st1.attempt = pw := by simpa using hP.2
            exact hm (beq_iff_eq.mpr this)
          | succ j =>
            exact ⟨j, by simp only [List.length_cons] at hi; omega, by simpa using hP⟩

/-- C5: the per-tick authentication check hashes the UTF-8 bytes of the current
attempt with SHA-256, hex-encodes the digest and compares it with the password
string (line 179-182); the session returns True exactly when some tick ends,
crash-free, with an attempt whose hex digest equals the password. The hypothesis
excludes a negative SHAKE_BUFFER, with which the session dies at line 121 before
any tick. -/
theorem C5_success_iff_digest_match (cfg : Config) (pw : String) (v : ℤ) (t0 : ℚ)
    (ticks : List Tick) (hsb : 0 ≤ cfg.SHAKE_BUFFER) :
    (Euth.auth cfg pw v t0 ticks).1 = PyRes.ret true ↔
    ∃ i, i < ticks.length ∧
      ((ticks.take (i + 1)).foldl (tickFold cfg) (initState t0, false)).2 = false ∧
      sha256hex ((ticks.take (i + 1)).foldl (tickFold cfg)
        (initState t0, false)).1.attempt = pw := by
  unfold Euth.auth
  rw [if_neg (by omega)]
  exact authLoop_ret_iff cfg pw v ticks (initState t0)

/-- Witness for C5 at the default configuration: a single face tick at time 1
with EAR 0.1 appends "B", whose pinned SHA-256 hex digest is the password, so
the session authenticates. -/
theorem C5_success_iff_digest_match_witness :
    0 ≤ defaultCfg.SHAKE_BUFFER ∧
    ((Euth.auth defaultCfg
        "df7e70e5021544f4834bbee64a9e3789febc4be81470df629cad6ddb03320a5c" 2 0
        [⟨1, some (1/10, 0)⟩]).1 = PyRes.ret true ↔
    ∃ i, i < [(⟨1, some (1/10, 0)⟩ : Tick)].length ∧
      (([(⟨1, some (1/10, 0)⟩ : Tick)].take (i + 1)).foldl (tickFold defaultCfg)
        (initState 0, false)).2 = false ∧
      sha256hex (([(⟨1, some (1/10, 0)⟩ : Tick)].take (i + 1)).foldl
        (tickFold defaultCfg) (initState 0, false)).1.attempt =
        "df7e70e5021544f4834bbee64a9e3789febc4be81470df629cad6ddb03320a5c") :=
  ⟨by with_unfolding_all decide,
   C5_success_iff_digest_match defaultCfg
     "df7e70e5021544f4834bbee64a9e3789febc4be81470df629cad6ddb03320a5c" 2 0
     [⟨1, some (1/10, 0)⟩] (by with_unfolding_all decide)⟩

/-- The C2 scenario input: EAR values [0.30, 0.15, 0.30] at times [0.0, 0.4,
1.0] measured from session start, a face on every tick, and a constant nose
position (no qualifying shake). -/
def c2ticks : List Tick :=
  [⟨0, some (3/10, 0)⟩, ⟨2/5, some (3/20, 0)⟩, ⟨1, some (3/10, 0)⟩]

/-- C2 counterexample: with blink_threshold 0.23, blink_cooldown 0.3 and the
remaining construction defaults (in particular shake_cooldown 0.5 and the
default password ""), the scenario run emits no Blink at all and does not end
with attempt "B": at t = 0.4 the Blink guard fails because t - last_clear_time
= 0.4 is not > CLEAR_COOLDOWN = 0.5 (last_clear_time starts at session start). -/
theorem C2_counterexample :
    (Euth.auth defaultCfg "" 2 0 c2ticks).2.2.1.countP (fun p => isBlink p.2) = 0 ∧
    (Euth.auth defaultCfg "" 2 0 c2ticks).2.1.attempt ≠ "B" := by
  with_unfolding_all decide

/-- C2 amended: the scenario run emits exactly one event, a Neutral at t = 1.0,
ends by frame-stream end, and leaves attempt "N": the candidate Blink at
t = 0.4 is suppressed by the clear cooldown measured from session start, after
which the Neutral timeout fires at t = 1.0. -/
theorem C2_amended :
    Euth.auth defaultCfg "" 2 0 c2ticks =
      (PyRes.stopped, ⟨0, 1, 0, [0, 0, 0], "N"⟩, [(1, Ev.neutral)], ["*"]) := by
  with_unfolding_all decide

/-- C4 counterexample: an invalid configuration - negative blink, auto and
clear cooldowns, shake_buffer_size 1 (below 2) - combined with the malformed
target digest "zz" is accepted silently: the session starts, processes a face
tick, emits a Blink under the bad values, and ends by frame-stream end rather
than failing to start. -/
theorem C4_counterexample :
    Euth.auth (Euth.init (23/100) (-1) (-1) 1 30 (-1)) "zz" 2 0 [⟨1, some (1/10, 5)⟩] =
      (PyRes.stopped, ⟨1, 1, 0, [5], "B"⟩, [(1, Ev.blink)], ["*"]) := by
  with_unfolding_all decide

/-- C4 amended: Euth.__init__ stores its arguments verbatim with no validation,
and session start validates nothing either: whenever SHAKE_BUFFER is
nonnegative the frame loop runs with whatever values were given (non-positive
cooldowns, shake_buffer_size below 2, malformed digest strings included); the
only start-time failure is a negative SHAKE_BUFFER, which raises ValueError
inside deque(maxlen=...) at line 121 - a deque precondition, not a
configuration check. -/
theorem C4_amended (bt bc ac : ℚ) (sb sth : ℤ) (cc : ℚ) (pw : String) (v : ℤ)
    (t0 : ℚ) (ticks : List Tick) :
    Euth.init bt bc ac sb sth cc = ⟨bt, bc, ac, sb, sth, cc⟩ ∧
    Euth.auth (Euth.init bt bc ac sb sth cc) pw v t0 ticks =
      (if 0 ≤ sb then authLoop (Euth.init bt bc ac sb sth cc) pw v (initState t0) ticks
       else (PyRes.exn, initState t0, [], [])) := by
  refine ⟨rfl, ?_⟩
  unfold Euth.auth
  dsimp only [Euth.init]
  split <;> split <;> first | rfl | omega

/-- A MediaPipe normalized landmark: x and y in normalized image coordinates
(Python floats, modeled as exact rationals). -/
structure Landmark where
  x : ℚ
  y : ℚ
deriving DecidableEq

/-- Python int(): truncation toward zero of a rational value. -/
def pyInt (q : ℚ) : ℤ := Int.tdiv q.num q.den

/-- Line 114: landmark indices of the left eye. -/
def LEFT_EYE : List ℕ := [33, 160, 158, 133, 153, 144]

/-- Line 115: landmark indices of the right eye. -/
def RIGHT_EYE : List ℕ := [362, 385, 387, 263, 373, 380]

/-- Line 116: landmark index of the nose tip. -/
def NOSE_TIP : ℕ := 1

/-- Lines 71-72 (get_coord): pixel coordinates of the landmark at index i;
Python list indexing raises IndexError when i is out of range, modeled as
none. -/
def get_coord (landmarks : List Landmark) (image_w image_h : ℤ) (i : ℕ) :
    Option (ℤ × ℤ) :=
  (landmarks.get? i).map fun p =>
    (pyInt (p.x * (image_w : ℚ)), pyInt (p.y * (image_h : ℚ)))

/-- Sequential fallible traversal, as a Python list comprehension whose body
may raise: the first failure aborts the whole comprehension. -/
def mapOpt {α β : Type} (f : α → Option β) : List α → Option (List β)
  | [] => some []
  | a :: l =>
    match f a, mapOpt f l with
    | some b, some bs => some (b :: bs)
    | _, _ => none

theorem mapOpt_none {α β : Type} (f : α → Option β) :
    ∀ (l : List α) (a : α), a ∈ l → f a = none → mapOpt f l = none := by
  intro l
  induction l with
  | nil => intro a ha; cases ha
  | cons b bs ih =>
    intro a ha hfa
    rcases List.mem_cons.mp ha with h | h
    · subst h; simp [mapOpt, hfa]
    · cases hfb : f b with
      | none => simp [mapOpt, hfb]
      | some y => simp [mapOpt, hfb, ih a h hfa]

/-- Lines 77-78: the two per-eye pixel-coordinate lists; any out-of-range index
aborts the tick with IndexError (none). -/
def eyeCoords (landmarks : List Landmark) (w h : ℤ) :
    Option (List (ℤ × ℤ) × List (ℤ × ℤ)) :=
  (mapOpt (get_coord landmarks w h) LEFT_EYE).bind fun le =>
    (mapOpt (get_coord landmarks w h) RIGHT_EYE).map fun re => (le, re)

/-- Lines 74-75 (distance): Euclidean distance in pixel space. Python computes
this with IEEE doubles; it is modeled with Lean Float (also IEEE 754 binary64).
It is reached only when all landmark lookups succeed, and no claim in this
development depends on its numeric value. -/
def distance (p1 p2 : ℤ × ℤ) : Float :=
  Float.pow (Float.ofInt ((p1.1 - p2.1) ^ 2 + (p1.2 - p2.2) ^ 2)) (0.5)

/-- Indexing into the six-point eye coordinate lists of lines 80-85 (always
in range when reached, so the default is never used). -/
def coordAt (eye : List (ℤ × ℤ)) (i : ℕ) : ℤ × ℤ := eye.getD i (0, 0)

/-- Lines 80-83: one eye's aspect ratio from its six coordinate points. -/
def earOfEye (eye : List (ℤ × ℤ)) : Float :=
  (distance (coordAt eye 1) (coordAt eye 5) + distance (coordAt eye 2) (coordAt eye 4)) /
    (2.0 * distance (coordAt eye 0) (coordAt eye 3))

/-- Euth.eye_aspect_ratio (lines 45-85): the mean of both eyes' EAR when every
landmark lookup succeeds; none models the IndexError Python raises during the
coordinate lookups of lines 77-78. -/
def eye_aspect_ratio (landmarks : List Landmark) (w h : ℤ) : Option Float :=
  (eyeCoords landmarks w h).map fun p => (earOfEye p.1 + earOfEye p.2) / 2.0

/-- Exact rational value of an IEEE double (NaN and the infinities map to 0; a
finite double with parts (m, e) is exactly m * 2^e). -/
def floatToRat (f : Float) : ℚ :=
  match f.toRatParts with
  | none => 0
  | some (m, e) =>
    if 0 ≤ e then ((m * 2 ^ e.toNat : ℤ) : ℚ) else (m : ℚ) / ((2 : ℚ) ^ (-e).toNat)

/-- Lines 140-171 at landmark level: one tick of Euth.auth given the raw
landmark set (none when no face is detected) and the frame dimensions. Returns
the new state, the events, and a crash flag that is true when Python raises:
IndexError from an out-of-range landmark index during eye_aspect_ratio (line
144) or the nose lookup (line 146) - both before any event logic runs, so the
state is returned unchanged - or the empty-deque ValueError of authTickCore.
The EAR value is carried exactly (floatToRat) into the rational-arithmetic
core. -/
def authTickLm (cfg : Config) (st : DState) (t : ℚ)
    (face : Option (List Landmark)) (w h : ℤ) : DState × List (ℚ × Ev) × Bool :=
  match face with
  | none => (st, [], false)
  | some landmarks =>
    match eye_aspect_ratio landmarks w h with
    | none => (st, [], true)
    | some ear =>
      match landmarks.get? NOSE_TIP with
      | none => (st, [], true)
      | some nose => authTickCore cfg st t (floatToRat ear) (pyInt (nose.x * (w : ℚ)))

/-- C3 counterexample: a tick with a detected face whose landmark set is empty
(fewer landmarks than the eye indices reference) does not produce the claimed
"emit no event, leave state unchanged, continue without exception" outcome: the
crash flag is set, modeling the IndexError Python raises, which aborts the
whole session. -/
theorem C3_counterexample :
    authTickLm defaultCfg (initState 0) 1 (some []) 640 480 ≠
      (initState 0, [], false) ∧
    authTickLm defaultCfg (initState 0) 1 (some []) 640 480 =
      (initState 0, [], true) := by
  with_unfolding_all decide

/-- C3 amended: for every tick whose landmark set has fewer than 388 landmarks
(the largest referenced index is 387, in RIGHT_EYE), the landmark lookup fails:
Python raises IndexError inside eye_aspect_ratio before any event logic, so the
tick emits no event and the state is unmutated, but the exception propagates
(crash flag true) and aborts the session, rather than the tick being rejected
with the loop continuing. -/
theorem C3_amended (cfg : Config) (st : DState) (t : ℚ)
    (landmarks : List Landmark) (w h : ℤ) (hlen : landmarks.length < 388) :
    authTickLm cfg st t (some landmarks) w h = (st, [], true) := by
  have h387 : landmarks.get? 387 = none := by rw [List.get?_eq_none]; omega
  have hre : mapOpt (get_coord landmarks w h) RIGHT_EYE = none := by
    refine mapOpt_none (get_coord landmarks w h) RIGHT_EYE 387 (by simp [RIGHT_EYE]) ?_
    simp only [get_coord, h387, Option.map_none']
  have heye : eyeCoords landmarks w h = none := by
    cases hl : mapOpt (get_coord landmarks w h) LEFT_EYE <;>
      simp [eyeCoords, hl, hre]
  simp [authTickLm, eye_aspect_ratio, heye]

/-- Witness for C3 amended: the empty landmark set. -/
theorem C3_amended_witness :
    ([] : List Landmark).length < 388 ∧
    authTickLm defaultCfg (initState 0) 1 (some []) 640 480 =
      (initState 0, [], true) :=
  ⟨by decide, C3_amended defaultCfg (initState 0) 1 [] 640 480 (by decide)⟩
